import Mathlib

/-!
Verification development for `sklearn_pandas/dataframe_mapper.py`.

The Python source is shallowly embedded: numpy/scipy arrays become `NDArr`
(shape list, row-major flat integer data, sparse tag), pandas `DataFrame`s
become `Frame` (named integer columns), sklearn transformers become `Transformer`
(fallible `fit`/`transform` functions over an explicit state type `σ`), and the
`DataFrameMapper` class becomes the `DataFrameMapper` structure with its
methods as functions.  Python exceptions are modelled with `Except Err`.
The container domain of `_get_col_subset` is restricted to a plain `DataFrame`
(the list-of-records and `DataWrapper` branches concern collaborator types that
are outside the mapper module).
-/

set_option autoImplicit false

namespace SklearnPandas

/-- Exceptions raised by the embedded code: pandas `KeyError` for a missing
column, `ValueError` from `extract_y`, the `assert isinstance(..., DataFrame)`
failure, and errors raised inside externally supplied transformers. -/
inductive Err where
  | keyError
  | valueError
  | assertionError
  | notFitted
  | otherError
deriving Repr, DecidableEq

/-- A numpy array or scipy sparse matrix: a shape, row-major flat data and a
tag recording whether the value is in sparse representation
(`scipy.sparse.issparse`). -/
structure NDArr where
  shape : List Nat
  data : List Int
  isSparse : Bool
deriving Repr, DecidableEq

/-- `a.shape[0]` (0 for a rank-0 array). -/
def NDArr.nrows (a : NDArr) : Nat := a.shape.headD 0

/-- `a.shape[1]` (0 when absent). -/
def NDArr.ncols (a : NDArr) : Nat := a.shape.getD 1 0

/-- `_handle_feature`: convert 1-dimensional arrays to 2-dimensional column
vectors via `np.array([fea]).T` (same flat data, shape `(n, 1)`); any other
array is returned unchanged. -/
def handle_feature (fea : NDArr) : NDArr :=
  if fea.shape.length = 1 then
    { fea with shape := [fea.shape.headD 0, 1] }
  else fea

/-- A pandas `DataFrame`: ordered named columns of integers. -/
structure Frame where
  cols : List (String × List Int)
deriving Repr, DecidableEq

/-- Values of column `c`, if present. -/
def Frame.colVals (X : Frame) (c : String) : Option (List Int) :=
  (X.cols.find? (fun p => p.1 = c)).map (fun p => p.2)

/-- Number of rows of the frame. -/
def Frame.nrows (X : Frame) : Nat := ((X.cols.head?).map (fun p => p.2.length)).getD 0

/-- A column selector: a single column name (string) or a list of names. -/
inductive Selector where
  | single (name : String)
  | multi (names : List String)
deriving Repr, DecidableEq

/-- Look up every named column; `none` as soon as one is missing
(pandas raises `KeyError`). -/
def lookupAll (X : Frame) : List String → Option (List (List Int))
  | [] => some []
  | c :: cs =>
    match X.colVals c, lookupAll X cs with
    | some v, some vs => some (v :: vs)
    | _, _ => none

/-- Row-major flattening of a list of columns. -/
def rowMajor (nrows : Nat) (colVals : List (List Int)) : List Int :=
  (List.range nrows).flatMap (fun r => colVals.map (fun v => v.getD r 0))

/-- `DataFrameMapper._get_col_subset` on a plain `DataFrame`: a single name
yields the 1-D `X[col].values` vector, a list of names the 2-D
`X[cols].values` matrix with columns in the given order; a missing column
propagates pandas' `KeyError`. -/
def get_col_subset (X : Frame) (cols : Selector) : Except Err NDArr :=
  match cols with
  | .single c =>
    match X.colVals c with
    | some v => .ok ⟨[v.length], v, false⟩
    | none => .error .keyError
  | .multi cs =>
    match lookupAll X cs with
    | some vss => .ok ⟨[X.nrows, cs.length], rowMajor X.nrows vss, false⟩
    | none => .error .keyError

/-- An sklearn transformer object: fallible `fit` and `transform` over an
explicit internal state of type `σ` (Python mutates the object in place; the
embedding threads the state). -/
structure Transformer (σ : Type) where
  fitFn : σ → NDArr → Except Err σ
  transformFn : σ → NDArr → Except Err (NDArr × σ)
  state : σ

/-- A Feature Spec: `(column selector, transformer or None)`. -/
abbrev Feature (σ : Type) := Selector × Option (Transformer σ)

/-- The raw `transformers` component of a feature argument: `None`, a single
transformer object, or a list of transformer objects. -/
inductive TransSpec (σ : Type) where
  | nil
  | one (t : Transformer σ)
  | many (ts : List (Transformer σ))

/-- Modelled from the spec: `make_transformer_pipeline` lives in the
repository's `pipeline` module, which is not under `src/`.  Per the spec
(§4.2, §6) it composes an ordered list of transformer objects into one
sequential pipeline transformer: `fit` fits then applies each stage in order,
`transform` applies each stage's transform in order; the composite threads the
state through the stages. -/
def make_transformer_pipeline {σ : Type} [Inhabited σ] (ts : List (Transformer σ)) :
    Transformer σ where
  state := ((ts.head?).map (fun t => t.state)).getD default
  fitFn := fun s x =>
    (ts.foldlM (fun (p : σ × NDArr) (t : Transformer σ) => do
      let s1 ← t.fitFn p.1 p.2
      let (x1, s2) ← t.transformFn s1 p.2
      pure (s2, x1)) (s, x)).map (fun (p : σ × NDArr) => p.1)
  transformFn := fun s x =>
    (ts.foldlM (fun (p : σ × NDArr) (t : Transformer σ) => do
      let (x1, s1) ← t.transformFn p.1 p.2
      pure (s1, x1)) (s, x)).map (fun (p : σ × NDArr) => (p.2, p.1))

/-- `_build_transformer`: a list of transformers is composed into one pipeline,
anything else is returned unchanged. -/
def build_transformer {σ : Type} [Inhabited σ] : TransSpec σ → Option (Transformer σ)
  | .nil => none
  | .one t => some t
  | .many ts => some (make_transformer_pipeline ts)

/-- The `DataFrameMapper` object: ordered Feature Specs, the post-fit widths
state (`None` until fit), the optional Target Spec and the sparsity flag. -/
structure DataFrameMapper (σ : Type) where
  features : List (Feature σ)
  feature_widths_ : Option (List Nat)
  y_feature : Option (Feature σ)
  sparse : Bool

/-- One element of the `features` constructor argument: a bare selector string
or a `(column_selector, transformers)` pair. -/
inductive FeatureArg (σ : Type) where
  | str (name : String)
  | pair (columns : Selector) (transformers : TransSpec σ)

/-- Normalization of one feature argument, as in `__init__`. -/
def initFeature {σ : Type} [Inhabited σ] : FeatureArg σ → Feature σ
  | .str s => (.single s, none)
  | .pair c tr => (c, build_transformer tr)

/-- The `features` constructor argument: a single top-level string is treated
as a one-element list. -/
inductive FeaturesArg (σ : Type) where
  | str (name : String)
  | list (l : List (FeatureArg σ))

/-- `DataFrameMapper.__init__`. -/
def DataFrameMapper.init {σ : Type} [Inhabited σ] (features : FeaturesArg σ)
    (y_feature : Option (FeatureArg σ)) (sparse : Bool) : DataFrameMapper σ :=
  let fl := match features with
    | .str s => [FeatureArg.str s]
    | .list l => l
  { features := fl.map initFeature
    feature_widths_ := none
    y_feature := y_feature.map initFeature
    sparse := sparse }

/-- A persisted (pickled) mapper state as seen by `__setstate__`: the
`features` entry, the optional `sparse` entry (absent in pre-1.0.0 pickles),
and whatever fit state / target spec the pickle may also carry — which the
shim never reads. -/
structure LegacyState (σ : Type) where
  features : List (Selector × TransSpec σ)
  sparse : Option Bool
  feature_widths : Option (List Nat)
  y_feature : Option (Selector × TransSpec σ)

/-- `DataFrameMapper.__setstate__`: only `features` (re-normalized through
`_build_transformer`) and `sparse` (defaulting to `False`) are assigned; the
restored object has no fit state and no target spec. -/
def setstate {σ : Type} [Inhabited σ] (state : LegacyState σ) : DataFrameMapper σ :=
  { features := state.features.map (fun p => (p.1, build_transformer p.2))
    sparse := (state.sparse).getD false
    feature_widths_ := none
    y_feature := none }

/-- Width recorded for a per-feature output: `_handle_feature(Xt).shape[1]`. -/
def widthOf (a : NDArr) : Nat := (handle_feature a).ncols

/-- The feature loop of `fit`: for each feature extract the column subset,
fit-then-transform its transformer (threading the mutated transformer state),
and record the width of the normalized output.  Returns the features with
their updated transformer states together with either the full width list or
the first error. -/
def fitFeatures {σ : Type} : List (Feature σ) → Frame →
    List (Feature σ) × Except Err (List Nat)
  | [], _ => ([], .ok [])
  | (columns, transformers) :: rest, X =>
    match get_col_subset X columns with
    | .error e => ((columns, transformers) :: rest, .error e)
    | .ok Xt =>
      match transformers with
      | none =>
        let (rest', r) := fitFeatures rest X
        ((columns, none) :: rest', r.map (fun ws => widthOf Xt :: ws))
      | some t =>
        match t.fitFn t.state Xt with
        | .error e => ((columns, some t) :: rest, .error e)
        | .ok s1 =>
          match t.transformFn s1 Xt with
          | .error e => ((columns, some { t with state := s1 }) :: rest, .error e)
          | .ok (Xt2, s2) =>
            let (rest', r) := fitFeatures rest X
            ((columns, some { t with state := s2 }) :: rest', r.map (fun ws => widthOf Xt2 :: ws))

/-- The `y` argument of `fit` / `extract_y`: `None`, a `DataFrame`, a
`Series`, or some other object. -/
inductive YArg where
  | noneY
  | frame (f : Frame)
  | series (name : String) (vals : List Int)
  | other

/-- Resolution of the target container inside `fit` (where the primary input
is already a `DataFrame`, so the fallback assertion holds): a frame is used
directly, a series becomes a one-column frame via `to_frame`, anything else
falls back to `X`. -/
def resolveDF (X : Frame) (y : YArg) : Frame :=
  match y with
  | .frame f => f
  | .series n v => ⟨[(n, v)]⟩
  | _ => X

/-- `DataFrameMapper.fit`: run the feature loop; only when it completed does
the new width list replace `feature_widths_`; then, if a Target Spec with a
transformer is present, resolve the target frame and fit the target
transformer. -/
def DataFrameMapper.fit {σ : Type} (self : DataFrameMapper σ) (X : Frame) (y : YArg) :
    DataFrameMapper σ × Except Err Unit :=
  let (features', r) := fitFeatures self.features X
  match r with
  | .error e => ({ self with features := features' }, .error e)
  | .ok feature_widths =>
    let m1 : DataFrameMapper σ :=
      { self with features := features', feature_widths_ := some feature_widths }
    match m1.y_feature with
    | none => (m1, .ok ())
    | some (y_columns, y_transformers) =>
      let df := resolveDF X y
      match y_transformers with
      | none => (m1, .ok ())
      | some t =>
        match get_col_subset df y_columns with
        | .error e => (m1, .error e)
        | .ok yt =>
          match t.fitFn t.state yt with
          | .error e => (m1, .error e)
          | .ok s1 =>
            ({ m1 with y_feature := some (y_columns, some { t with state := s1 }) }, .ok ())

/-- The feature loop of `transform`: extract each feature's column subset,
apply the already-fitted transformer (threading its state), and normalize the
shape.  Returns the features with updated states and either the ordered list
of extracted matrices or the first error. -/
def transformFeatures {σ : Type} : List (Feature σ) → Frame →
    List (Feature σ) × Except Err (List NDArr)
  | [], _ => ([], .ok [])
  | (columns, transformers) :: rest, X =>
    match get_col_subset X columns with
    | .error e => ((columns, transformers) :: rest, .error e)
    | .ok Xt =>
      match transformers with
      | none =>
        let (rest', r) := transformFeatures rest X
        ((columns, none) :: rest', r.map (fun l => handle_feature Xt :: l))
      | some t =>
        match t.transformFn t.state Xt with
        | .error e => ((columns, some t) :: rest, .error e)
        | .ok (Xt2, s1) =>
          let (rest', r) := transformFeatures rest X
          ((columns, some { t with state := s1 }) :: rest', r.map (fun l => handle_feature Xt2 :: l))

/-- Number of rows of the first matrix in the stack. -/
def rows0 (l : List NDArr) : Nat := ((l.head?).map NDArr.nrows).getD 0

/-- Total number of columns of the stack. -/
def sumCols (l : List NDArr) : Nat := (l.map NDArr.ncols).sum

/-- Row `r` of matrix `a` (row-major slice). -/
def rowSlice (a : NDArr) (r : Nat) : List Int := (a.data.drop (r * a.ncols)).take a.ncols

/-- Row-major data of the horizontal concatenation. -/
def hstackData (l : List NDArr) : List Int :=
  (List.range (rows0 l)).flatMap (fun r => l.flatMap (fun a => rowSlice a r))

/-- `np.hstack`: dense horizontal concatenation. -/
def np_hstack (l : List NDArr) : NDArr := ⟨[rows0 l, sumCols l], hstackData l, false⟩

/-- `sparse.hstack(...).tocsr()`: sparse horizontal concatenation, with dense
inputs promoted to a sparse-concatenable form. -/
def sparse_hstack_tocsr (l : List NDArr) : NDArr := ⟨[rows0 l, sumCols l], hstackData l, true⟩

/-- `stacked.toarray()`: conversion of a sparse matrix to a dense array. -/
def NDArr.toarray (a : NDArr) : NDArr := { a with isSparse := false }

/-- The combination step at the end of `transform`: if any extracted feature
is sparse, combine sparsely and densify afterwards unless the mapper was
initialized with `sparse=True`; otherwise combine as normal arrays. -/
def combine (sparseFlag : Bool) (extracted : List NDArr) : NDArr :=
  if extracted.any (fun fea => fea.isSparse) then
    let stacked := sparse_hstack_tocsr extracted
    if !sparseFlag then stacked.toarray else stacked
  else np_hstack extracted

/-- `DataFrameMapper.transform`: run the feature loop and combine the
extracted matrices into one array. -/
def DataFrameMapper.transform {σ : Type} (self : DataFrameMapper σ) (X : Frame) :
    DataFrameMapper σ × Except Err NDArr :=
  let (features', r) := transformFeatures self.features X
  ({ self with features := features' }, r.map (combine self.sparse))

/-- The `X` argument of `extract_y`: a `DataFrame` or some other object (only
the fallback assertion looks at it). -/
inductive XArg where
  | frame (f : Frame)
  | other

/-- Resolution of the target container inside `extract_y`: a frame is used
directly, a series becomes a one-column frame, otherwise fall back to `X`,
which the code asserts to be a `DataFrame`. -/
def resolveTargetFrame (X : XArg) (y : YArg) : Except Err Frame :=
  match y with
  | .frame f => .ok f
  | .series n v => .ok ⟨[(n, v)]⟩
  | _ =>
    match X with
    | .frame f => .ok f
    | .other => .error .assertionError

/-- `DataFrameMapper.extract_y`: `None` when no target and no Target Spec;
`ValueError` when a target is passed but no Target Spec is configured;
otherwise resolve the target frame, extract the target selector's subset and
apply the fitted target transformer if present. -/
def DataFrameMapper.extract_y {σ : Type} (self : DataFrameMapper σ) (X : XArg) (y : YArg) :
    Except Err (Option NDArr) :=
  match y, self.y_feature with
  | .noneY, none => .ok none
  | _, none => .error .valueError
  | _, some (y_columns, y_transformers) => do
    let df ← resolveTargetFrame X y
    let yt ← get_col_subset df y_columns
    match y_transformers with
    | none => pure (some yt)
    | some t => do
      let (yt2, _) ← t.transformFn t.state yt
      pure (some yt2)

/-- `np.cumsum` with a running accumulator. -/
def cumsumFrom (acc : Nat) : List Nat → List Nat
  | [] => []
  | x :: xs => (acc + x) :: cumsumFrom (acc + x) xs

/-- `np.cumsum`. -/
def cumsum (l : List Nat) : List Nat := cumsumFrom 0 l

/-- `DataFrameMapper.feature_indices_`: `np.cumsum([0] + list(feature_widths_))`
(defined only once the widths state is set). -/
def DataFrameMapper.feature_indices_ {σ : Type} (self : DataFrameMapper σ) :
    Option (List Nat) :=
  self.feature_widths_.map (fun ws => cumsum (0 :: ws))

/-- `DataFrameMapper.X_n_features_`: `np.sum(feature_widths_)`. -/
def DataFrameMapper.X_n_features_ {σ : Type} (self : DataFrameMapper σ) : Option Nat :=
  self.feature_widths_.map List.sum

/-- The loop body of `X_features_`: each feature repeated its width many
times, in order (`zip` truncates at the shorter list, as in Python). -/
def repeatWidths {σ : Type} (ws : List Nat) (fs : List (Feature σ)) : List (Feature σ) :=
  (ws.zip fs).flatMap (fun p => List.replicate p.1 p.2)

/-- `DataFrameMapper.X_features_`. -/
def DataFrameMapper.X_features_ {σ : Type} (self : DataFrameMapper σ) :
    Option (List (Feature σ)) :=
  self.feature_widths_.map (fun ws => repeatWidths ws self.features)

/-- `DataFrameMapper.X_columns_`: the selector component of each entry of
`X_features_`. -/
def DataFrameMapper.X_columns_ {σ : Type} (self : DataFrameMapper σ) :
    Option (List Selector) :=
  (self.X_features_).map (List.map Prod.fst)

/-- The tail of `extract_y` once the target frame is resolved: extract the
target selector's subset of `df` and apply the fitted target transformer if
present (no further coercion of its output). -/
def applyY {σ : Type} (y_columns : Selector) (y_transformers : Option (Transformer σ))
    (df : Frame) : Except Err (Option NDArr) := do
  let yt ← get_col_subset df y_columns
  match y_transformers with
  | none => pure (some yt)
  | some t => do
    let (yt2, _) ← t.transformFn t.state yt
    pure (some yt2)

/-- A transformer whose `transform` does not mutate the transformer's state
(the hypothesis of the idempotence claim). -/
def TransPure {σ : Type} (t : Transformer σ) : Prop :=
  ∀ s x out s', t.transformFn s x = Except.ok (out, s') → s' = s

/-! ### Concrete mappers, frames and transformers used by witnesses and counterexamples -/

/-- A transformer producing a one-column sparse matrix. -/
def sparseTransformer : Transformer Unit :=
  { fitFn := fun s _ => Except.ok s
    transformFn := fun s x => Except.ok (⟨[x.nrows, 1], x.data, true⟩, s)
    state := () }

/-- A fitted Mapper with `sparse=True` whose single feature produces a sparse
output. -/
def mapperC1 : DataFrameMapper Unit :=
  { features := [(Selector.single "a", some sparseTransformer)]
    feature_widths_ := some [1]
    y_feature := none
    sparse := true }

/-- A two-row input frame for the sparse-output mapper. -/
def frameC1 : Frame := ⟨[("a", [1, 2])]⟩

/-- A Mapper with no Target Spec. -/
def mapperC4 : DataFrameMapper Unit :=
  { features := [(Selector.single "a", none)]
    feature_widths_ := none
    y_feature := none
    sparse := false }

/-- A Mapper with a Target Spec and no target transformer. -/
def mapperC4T : DataFrameMapper Unit :=
  { features := [(Selector.single "a", none)]
    feature_widths_ := some [1]
    y_feature := some (Selector.single "y", none)
    sparse := false }

/-- An identity transformer: `transform` returns its input and leaves the
state untouched. -/
def idTransformer : Transformer Unit :=
  { fitFn := fun s _ => Except.ok s
    transformFn := fun s x => Except.ok (x, s)
    state := () }

/-- A fitted Mapper whose transformer is deterministic and non-mutating. -/
def mapperC9 : DataFrameMapper Unit :=
  { features := [(Selector.single "a", some idTransformer)]
    feature_widths_ := some [1]
    y_feature := none
    sparse := false }

/-- A two-row input frame for the idempotence witness. -/
def frameC9 : Frame := ⟨[("a", [1, 2])]⟩

/-- Witness for C2 at a concrete fitted mapper with widths `[1, 3]`. -/
def mapperC2 : DataFrameMapper Unit :=
  { features := [(Selector.single "age", none), (Selector.single "city", none)]
    feature_widths_ := some [1, 3]
    y_feature := none
    sparse := false }

/-- A persisted legacy state that carries a widths array and a target spec
(which the shim must ignore) and no sparsity entry. -/
def legacyStateC10 : LegacyState Unit :=
  { features := [(Selector.single "a", TransSpec.nil)]
    sparse := none
    feature_widths := some [2, 5]
    y_feature := some (Selector.single "y", TransSpec.nil) }

/-- A Mapper, built by `__init__` with a single passthrough feature, on which
`fit` has never been called (`feature_widths_` is `None`). -/
def mapperC3 : DataFrameMapper Unit :=
  DataFrameMapper.init (FeaturesArg.list [FeatureArg.str "a"]) none false

/-- A three-row input frame for the unfitted mapper. -/
def frameC3 : Frame := ⟨[("a", [1, 2, 3])]⟩

/-- A previously fitted Mapper (widths `[7]`) whose feature names a column
that the new input lacks, so refitting fails during the feature loop. -/
def mapperC7 : DataFrameMapper Unit :=
  { features := [(Selector.single "zz", none)]
    feature_widths_ := some [7]
    y_feature := none
    sparse := false }

/-- A frame without column `zz`. -/
def frameC7 : Frame := ⟨[("a", [1])]⟩

/-- A Mapper whose single Feature Spec uses an empty list selector: pandas
`X[[]]` yields an `(nrows, 0)`-shaped array, so the feature's recorded width
is 0. -/
def mapperC6 : DataFrameMapper Unit :=
  DataFrameMapper.init (FeaturesArg.list [FeatureArg.pair (Selector.multi []) TransSpec.nil])
    none false

/-- A two-row input frame. -/
def frameC6 : Frame := ⟨[("a", [1, 2])]⟩

/-- A Mapper with one single-name feature and one two-name feature, so a
successful fit records widths `[1, 2]`. -/
def mapperC6W : DataFrameMapper Unit :=
  { features := [(Selector.single "a", none), (Selector.multi ["a", "b"], none)]
    feature_widths_ := none
    y_feature := none
    sparse := false }

/-- A two-row, two-column input frame. -/
def frameC6W : Frame := ⟨[("a", [1, 2]), ("b", [3, 4])]⟩

/-! ### Helper lemmas about cumulative sums and width-repetition -/

theorem cumsumFrom_eq_map (acc : Nat) (l : List Nat) :
    cumsumFrom acc l = (List.range l.length).map (fun i => acc + (l.take (i + 1)).sum) := by
  induction l generalizing acc with
  | nil => rfl
  | cons x xs ih =>
    simp only [cumsumFrom, ih, List.length_cons, List.range_succ_eq_map, List.map_cons,
      List.map_map]
    congr 1
    apply List.map_congr_left
    intro a _
    simp [List.take_succ_cons, Nat.add_assoc]

theorem cumsum_zero_cons (ws : List Nat) :
    cumsum (0 :: ws) = (List.range (ws.length + 1)).map (fun i => (ws.take i).sum) := by
  simp only [cumsum, cumsumFrom_eq_map, List.length_cons]
  congr 1
  funext i
  simp [List.take_succ_cons]

theorem cumsum_zero_cons_getD (ws : List Nat) (i : Nat) (h : i ≤ ws.length) :
    (cumsum (0 :: ws)).getD i 0 = (ws.take i).sum := by
  rw [cumsum_zero_cons, List.getD_eq_getElem?_getD, List.getElem?_map,
    List.getElem?_range (Nat.lt_succ_of_le h)]
  rfl

theorem sum_take_le (l : List Nat) (i : Nat) : (l.take i).sum ≤ l.sum := by
  conv_rhs => rw [← List.take_append_drop i l]
  rw [List.sum_append]
  exact Nat.le_add_right _ _

theorem sum_take_mono (l : List Nat) {i j : Nat} (h : i ≤ j) :
    (l.take i).sum ≤ (l.take j).sum := by
  have : l.take i = (l.take j).take i := by
    rw [List.take_take, Nat.min_eq_left h]
  rw [this]
  exact sum_take_le _ _

theorem sum_take_succ_getD (l : List Nat) (i : Nat) (h : i < l.length) :
    (l.take (i + 1)).sum = (l.take i).sum + l.getD i 0 := by
  rw [List.sum_take_succ l i h, List.getD_eq_getElem l 0 h]

theorem replicate_getElem? {α : Type} (w k : Nat) (f : α) (h : k < w) :
    (List.replicate w f)[k]? = some f := by
  rw [List.getElem?_eq_getElem (by simpa using h)]
  simp

theorem repeatWidths_length {σ : Type} (ws : List Nat) (fs : List (Feature σ))
    (h : ws.length = fs.length) : (repeatWidths ws fs).length = ws.sum := by
  induction ws generalizing fs with
  | nil => simp [repeatWidths]
  | cons w ws ih =>
    cases fs with
    | nil => simp at h
    | cons f fs =>
      simp only [repeatWidths, List.zip_cons_cons, List.flatMap_cons, List.length_append,
        List.length_replicate, List.sum_cons]
      have := ih fs (by simpa using h)
      simp only [repeatWidths] at this
      rw [this]

theorem repeatWidths_getElem? {σ : Type} (ws : List Nat) (fs : List (Feature σ))
    (h : ws.length = fs.length) (j k : Nat) (hk : k < ws.getD j 0) :
    (repeatWidths ws fs)[(ws.take j).sum + k]? = fs[j]? := by
  induction ws generalizing fs j with
  | nil => simp [List.getD_nil] at hk
  | cons w ws ih =>
    cases fs with
    | nil => simp at h
    | cons f fs =>
      cases j with
      | zero =>
        rw [List.getD_cons_zero] at hk
        simp only [repeatWidths, List.zip_cons_cons, List.flatMap_cons, List.take_zero,
          List.sum_nil, Nat.zero_add]
        rw [List.getElem?_append_left (by simpa using hk), replicate_getElem? w k f hk]
        simp
      | succ j =>
        rw [List.getD_cons_succ] at hk
        simp only [repeatWidths, List.zip_cons_cons, List.flatMap_cons, List.take_succ_cons,
          List.sum_cons]
        have hidx : w + (ws.take j).sum + k = (List.replicate w f).length +
            ((ws.take j).sum + k) := by
          simp [Nat.add_assoc]
        rw [hidx, List.getElem?_append_right (Nat.le_add_right _ _), Nat.add_sub_cancel_left]
        have := ih fs (by simpa using h) j hk
        simp only [repeatWidths] at this
        rw [this]
        simp

/-! ### The claims -/

/-- Claim C2: for every Mapper with a set widths array (established by `fit`,
which makes the widths list parallel to the feature list), the cumulative
offsets array `feature_indices_` is the prefix-sum list of the widths prefixed
with 0: its length is the number of Feature Specs plus one, its first entry is
0, it is non-decreasing, successive differences recover the widths, and the
total output width `X_n_features_` is the sum of the widths. -/
theorem C2_feature_indices_prefix_sums {σ : Type} (m : DataFrameMapper σ) (ws : List Nat)
    (hw : m.feature_widths_ = some ws) (hlen : ws.length = m.features.length) :
    m.feature_indices_ = some (cumsum (0 :: ws)) ∧
    (cumsum (0 :: ws)).length = m.features.length + 1 ∧
    (cumsum (0 :: ws)).getD 0 0 = 0 ∧
    (∀ i j, i ≤ j → j ≤ ws.length →
      (cumsum (0 :: ws)).getD i 0 ≤ (cumsum (0 :: ws)).getD j 0) ∧
    (∀ i, i < ws.length →
      (cumsum (0 :: ws)).getD (i + 1) 0 - (cumsum (0 :: ws)).getD i 0 = ws.getD i 0) ∧
    m.X_n_features_ = some ws.sum := by
  refine ⟨?_, ?_, ?_, ?_, ?_, ?_⟩
  · simp [DataFrameMapper.feature_indices_, hw]
  · rw [cumsum_zero_cons]
    simp [hlen]
  · rw [cumsum_zero_cons_getD ws 0 (Nat.zero_le _)]
    simp
  · intro i j hij hj
    rw [cumsum_zero_cons_getD ws i (Nat.le_trans hij hj), cumsum_zero_cons_getD ws j hj]
    exact sum_take_mono ws hij
  · intro i hi
    rw [cumsum_zero_cons_getD ws (i + 1) hi, cumsum_zero_cons_getD ws i (Nat.le_of_lt hi),
      sum_take_succ_getD ws i hi, Nat.add_sub_cancel_left]
  · simp [DataFrameMapper.X_n_features_, hw]

theorem C2_feature_indices_prefix_sums_witness :
    mapperC2.feature_widths_ = some [1, 3] ∧
    ([1, 3].length = mapperC2.features.length) ∧
    (mapperC2.feature_indices_ = some (cumsum (0 :: [1, 3])) ∧
    (cumsum (0 :: [1, 3])).length = mapperC2.features.length + 1 ∧
    (cumsum (0 :: [1, 3])).getD 0 0 = 0 ∧
    (∀ i j, i ≤ j → j ≤ [1, 3].length →
      (cumsum (0 :: [1, 3])).getD i 0 ≤ (cumsum (0 :: [1, 3])).getD j 0) ∧
    (∀ i, i < [1, 3].length →
      (cumsum (0 :: [1, 3])).getD (i + 1) 0 - (cumsum (0 :: [1, 3])).getD i 0 =
        [1, 3].getD i 0) ∧
    mapperC2.X_n_features_ = some ([1, 3].sum)) :=
  ⟨rfl, rfl, C2_feature_indices_prefix_sums mapperC2 [1, 3] rfl rfl⟩

/-- Claim C5: for every fitted Mapper (widths parallel to the features), the
back-reference array `X_features_` repeats Feature Spec `j` exactly
`widths[j]` times in order — it has `sum(widths)` entries, and at every column
offset `(widths.take j).sum + k` with `k < widths[j]` (i.e. throughout the
column span of feature `j`) it equals Feature Spec `j` — and `X_columns_` is
the selector component of each entry. -/
theorem C5_X_features_back_references {σ : Type} (m : DataFrameMapper σ) (ws : List Nat)
    (hw : m.feature_widths_ = some ws) (hlen : ws.length = m.features.length) :
    m.X_features_ = some (repeatWidths ws m.features) ∧
    (repeatWidths ws m.features).length = ws.sum ∧
    (∀ j k, k < ws.getD j 0 →
      (repeatWidths ws m.features)[(ws.take j).sum + k]? = m.features[j]?) ∧
    m.X_columns_ = some ((repeatWidths ws m.features).map Prod.fst) := by
  refine ⟨?_, ?_, ?_, ?_⟩
  · simp [DataFrameMapper.X_features_, hw]
  · exact repeatWidths_length ws m.features hlen
  · intro j k hk
    exact repeatWidths_getElem? ws m.features hlen j k hk
  · simp [DataFrameMapper.X_columns_, DataFrameMapper.X_features_, hw]

theorem C5_X_features_back_references_witness :
    mapperC2.feature_widths_ = some [1, 3] ∧
    ([1, 3].length = mapperC2.features.length) ∧
    (mapperC2.X_features_ = some (repeatWidths [1, 3] mapperC2.features) ∧
    (repeatWidths [1, 3] mapperC2.features).length = [1, 3].sum ∧
    (∀ j k, k < [1, 3].getD j 0 →
      (repeatWidths [1, 3] mapperC2.features)[([1, 3].take j).sum + k]? =
        mapperC2.features[j]?) ∧
    mapperC2.X_columns_ = some ((repeatWidths [1, 3] mapperC2.features).map Prod.fst)) :=
  ⟨rfl, rfl, C5_X_features_back_references mapperC2 [1, 3] rfl rfl⟩

/-- Claim C10: `__setstate__` assigns only the Feature Spec list (transformer
specs re-normalized through `_build_transformer`, so lists become pipelines)
and the sparsity flag (defaulting to false when absent from the persisted
state); the restored Mapper has no widths fit state and no Target Spec,
regardless of what the persisted state contained. -/
theorem C10_setstate_restores_only_features_and_sparse {σ : Type} [Inhabited σ]
    (st : LegacyState σ) :
    (setstate st).features = st.features.map (fun p => (p.1, build_transformer p.2)) ∧
    (setstate st).sparse = (st.sparse).getD false ∧
    (st.sparse = none → (setstate st).sparse = false) ∧
    (setstate st).feature_widths_ = none ∧
    (setstate st).y_feature = none := by
  refine ⟨rfl, rfl, ?_, rfl, rfl⟩
  intro h
  simp [setstate, h]

theorem C10_setstate_restores_only_features_and_sparse_witness :
    legacyStateC10.sparse = none ∧
    ((setstate legacyStateC10).features =
      legacyStateC10.features.map (fun p => (p.1, build_transformer p.2)) ∧
    (setstate legacyStateC10).sparse = (legacyStateC10.sparse).getD false ∧
    (legacyStateC10.sparse = none → (setstate legacyStateC10).sparse = false) ∧
    (setstate legacyStateC10).feature_widths_ = none ∧
    (setstate legacyStateC10).y_feature = none) :=
  ⟨rfl, C10_setstate_restores_only_features_and_sparse legacyStateC10⟩

/-- Counterexample to claim C3: on this Mapper `fit` has never completed
(`feature_widths_` is still `None`), yet `transform` silently succeeds and
returns a 3×1 output matrix — `transform` performs no fit-state check at
all. -/
theorem C3_counterexample_transform_before_fit_succeeds :
    mapperC3.feature_widths_ = none ∧
    (mapperC3.transform frameC3).2 = Except.ok ⟨[3, 1], [1, 2, 3], false⟩ :=
  ⟨rfl, rfl⟩

/-- Claim C3 as amended: `transform` never consults the fit state: its output
is unchanged if `feature_widths_` is replaced by anything (including `None`),
and it leaves `feature_widths_` untouched.  Hence calling `transform` before
`fit` is not detected: it succeeds whenever selector resolution and every
transformer's own `transform` succeed (e.g. for passthrough features), and
fails only when an unfitted transformer itself raises. -/
theorem C3_amended_transform_has_no_fit_check {σ : Type} (m : DataFrameMapper σ)
    (X : Frame) (v : Option (List Nat)) :
    (({ m with feature_widths_ := v } : DataFrameMapper σ).transform X).2 =
      (m.transform X).2 ∧
    ((m.transform X).1).feature_widths_ = m.feature_widths_ :=
  ⟨rfl, rfl⟩

/-- Claim C7: if the feature loop of `fit` fails (selector resolution or a
transformer's fit/transform raises), the error propagates and the previously
stored widths state is left unchanged — the new width list replaces the old
one only after all features have been processed. -/
theorem C7_fit_failure_preserves_widths {σ : Type} (m : DataFrameMapper σ) (X : Frame)
    (y : YArg) (fs' : List (Feature σ)) (e : Err)
    (h : fitFeatures m.features X = (fs', Except.error e)) :
    m.fit X y = ({ m with features := fs' }, Except.error e) ∧
    ((m.fit X y).1).feature_widths_ = m.feature_widths_ := by
  have h1 : m.fit X y = ({ m with features := fs' }, Except.error e) := by
    simp only [DataFrameMapper.fit, h]
  exact ⟨h1, by rw [h1]⟩

theorem C7_fit_failure_preserves_widths_witness :
    fitFeatures mapperC7.features frameC7 = (mapperC7.features, Except.error Err.keyError) ∧
    (mapperC7.fit frameC7 YArg.noneY =
      ({ mapperC7 with features := mapperC7.features }, Except.error Err.keyError) ∧
    ((mapperC7.fit frameC7 YArg.noneY).1).feature_widths_ = mapperC7.feature_widths_) :=
  ⟨rfl, C7_fit_failure_preserves_widths mapperC7 frameC7 YArg.noneY
    mapperC7.features Err.keyError rfl⟩

theorem fitFeatures_ok_length {σ : Type} (fs : List (Feature σ)) (X : Frame)
    (fs' : List (Feature σ)) (ws : List Nat)
    (h : fitFeatures fs X = (fs', Except.ok ws)) : ws.length = fs.length := by
  induction fs generalizing fs' ws with
  | nil =>
    simp only [fitFeatures] at h
    cases h
    rfl
  | cons f rest ih =>
    obtain ⟨columns, transformers⟩ := f
    simp only [fitFeatures] at h
    split at h
    · simp at h
    · split at h
      · rcases hrec : fitFeatures rest X with ⟨rest', r⟩
        rw [hrec] at h
        cases r with
        | error e => simp [Except.map] at h
        | ok ws0 =>
          simp only [Except.map, Prod.mk.injEq, Except.ok.injEq] at h
          obtain ⟨-, hw⟩ := h
          rw [← hw]
          simp [ih rest' ws0 hrec]
      · split at h
        · simp at h
        · split at h
          · simp at h
          · rcases hrec : fitFeatures rest X with ⟨rest', r⟩
            rw [hrec] at h
            cases r with
            | error e => simp [Except.map] at h
            | ok ws0 =>
              simp only [Except.map, Prod.mk.injEq, Except.ok.injEq] at h
              obtain ⟨-, hw⟩ := h
              rw [← hw]
              simp [ih rest' ws0 hrec]

/-- Counterexample to claim C6: this `fit` call succeeds and stores the widths
array `[0]`, whose entry is not a positive integer — widths can be zero (an
empty list selector yields a zero-column output). -/
theorem C6_counterexample_zero_width :
    (mapperC6.fit frameC6 YArg.noneY).2 = Except.ok () ∧
    ((mapperC6.fit frameC6 YArg.noneY).1).feature_widths_ = some [0] ∧
    ¬ (∀ w ∈ [0], 0 < w) :=
  ⟨rfl, rfl, by decide⟩

/-- Claim C6 as amended: after any successful run of the feature loop of
`fit`, the stored widths array has exactly one entry per Feature Spec, in the
same order (the widths list is the list of normalized output column counts of
the features, in feature order); every entry is a nonnegative integer, but not
necessarily positive (an empty list selector yields width 0). -/
theorem C6_amended_fit_widths_one_per_feature {σ : Type} (m : DataFrameMapper σ)
    (X : Frame) (y : YArg) (fs' : List (Feature σ)) (ws : List Nat)
    (h : fitFeatures m.features X = (fs', Except.ok ws)) :
    ((m.fit X y).1).feature_widths_ = some ws ∧ ws.length = m.features.length := by
  constructor
  · rcases hy : m.y_feature with _ | ⟨yc, yt⟩
    · simp [DataFrameMapper.fit, h, hy]
    · rcases yt with _ | t
      · simp [DataFrameMapper.fit, h, hy]
      · rcases hg : get_col_subset (resolveDF X y) yc with e | yv
        · simp [DataFrameMapper.fit, h, hy, hg]
        · rcases hf : t.fitFn t.state yv with e | s1
          · simp [DataFrameMapper.fit, h, hy, hg, hf]
          · simp [DataFrameMapper.fit, h, hy, hg, hf]
  · exact fitFeatures_ok_length m.features X fs' ws h

theorem C6_amended_fit_widths_one_per_feature_witness :
    fitFeatures mapperC6W.features frameC6W = (mapperC6W.features, Except.ok [1, 2]) ∧
    (((mapperC6W.fit frameC6W YArg.noneY).1).feature_widths_ = some [1, 2] ∧
      ([1, 2] : List Nat).length = mapperC6W.features.length) :=
  ⟨rfl, C6_amended_fit_widths_one_per_feature mapperC6W frameC6W YArg.noneY
    mapperC6W.features [1, 2] rfl⟩

/-- Claim C1: for every Mapper and input whose feature loop succeeds,
`transform` returns the combination of the extracted matrices, and that
combination is in sparse representation iff at least one extracted per-feature
output is sparse and the Mapper's sparsity flag is true; when some output is
sparse but the flag is false the sparse concatenation is converted to a dense
array, and when no output is sparse the result is the dense horizontal
concatenation regardless of the flag. -/
theorem C1_transform_sparse_combination {σ : Type} (m : DataFrameMapper σ) (X : Frame)
    (fs' : List (Feature σ)) (exs : List NDArr)
    (h : transformFeatures m.features X = (fs', Except.ok exs)) :
    (m.transform X).2 = Except.ok (combine m.sparse exs) ∧
    ((combine m.sparse exs).isSparse = true ↔
      (exs.any (fun fea => fea.isSparse) = true ∧ m.sparse = true)) ∧
    (exs.any (fun fea => fea.isSparse) = true → m.sparse = false →
      combine m.sparse exs = (sparse_hstack_tocsr exs).toarray) ∧
    (exs.any (fun fea => fea.isSparse) = false → combine m.sparse exs = np_hstack exs) := by
  refine ⟨?_, ?_, ?_, ?_⟩
  · simp [DataFrameMapper.transform, h, Except.map]
  · cases hA : exs.any (fun fea => fea.isSparse) <;> cases hs : m.sparse <;>
      simp [combine, hA, hs, sparse_hstack_tocsr, np_hstack, NDArr.toarray]
  · intro hA hs
    simp [combine, hA, hs]
  · intro hA
    simp [combine, hA]

theorem C1_transform_sparse_combination_witness :
    transformFeatures mapperC1.features frameC1 =
      (mapperC1.features, Except.ok [⟨[2, 1], [1, 2], true⟩]) ∧
    ((mapperC1.transform frameC1).2 =
      Except.ok (combine mapperC1.sparse [⟨[2, 1], [1, 2], true⟩]) ∧
    ((combine mapperC1.sparse [⟨[2, 1], [1, 2], true⟩]).isSparse = true ↔
      ([(⟨[2, 1], [1, 2], true⟩ : NDArr)].any (fun fea => fea.isSparse) = true ∧
        mapperC1.sparse = true)) ∧
    ([(⟨[2, 1], [1, 2], true⟩ : NDArr)].any (fun fea => fea.isSparse) = true →
      mapperC1.sparse = false →
      combine mapperC1.sparse [⟨[2, 1], [1, 2], true⟩] =
        (sparse_hstack_tocsr [⟨[2, 1], [1, 2], true⟩]).toarray) ∧
    ([(⟨[2, 1], [1, 2], true⟩ : NDArr)].any (fun fea => fea.isSparse) = false →
      combine mapperC1.sparse [⟨[2, 1], [1, 2], true⟩] =
        np_hstack [⟨[2, 1], [1, 2], true⟩])) :=
  ⟨rfl, C1_transform_sparse_combination mapperC1 frameC1 mapperC1.features
    [⟨[2, 1], [1, 2], true⟩] rfl⟩

/-- Claim C8: `_handle_feature` reshapes an array with exactly one dimension
into an `(n, 1)` single-column matrix (the form in which `fit` measures
widths and `transform` collects outputs for combination), returns any array
of rank 2 or higher unchanged, and therefore yields a rank-2 array on every
rank-1 or rank-2 input. -/
theorem C8_handle_feature_column_vector (a : NDArr) :
    (a.shape.length = 1 →
      handle_feature a = ⟨[a.nrows, 1], a.data, a.isSparse⟩ ∧
      (handle_feature a).shape.length = 2) ∧
    (2 ≤ a.shape.length → handle_feature a = a) ∧
    (a.shape.length = 1 ∨ a.shape.length = 2 → (handle_feature a).shape.length = 2) := by
  refine ⟨?_, ?_, ?_⟩
  · intro h1
    constructor
    · simp [handle_feature, h1, NDArr.nrows]
    · simp [handle_feature, h1]
  · intro h2
    have hne : ¬ a.shape.length = 1 := by omega
    simp [handle_feature, hne]
  · rintro (h1 | h2)
    · simp [handle_feature, h1]
    · have hne : ¬ a.shape.length = 1 := by omega
      simp [handle_feature, hne, h2]

theorem C8_handle_feature_column_vector_witness :
    ((⟨[3], [1, 2, 3], false⟩ : NDArr).shape.length = 1) ∧
    (handle_feature ⟨[3], [1, 2, 3], false⟩ =
        ⟨[(⟨[3], [1, 2, 3], false⟩ : NDArr).nrows, 1], [1, 2, 3], false⟩ ∧
      (handle_feature ⟨[3], [1, 2, 3], false⟩).shape.length = 2) :=
  ⟨rfl, (C8_handle_feature_column_vector ⟨[3], [1, 2, 3], false⟩).1 rfl⟩

/-- Claim C4: `extract_y` returns `None` (no error) when `y` is `None` and no
Target Spec is configured; raises `ValueError` when `y` is passed but no
Target Spec is configured; and otherwise resolves the target container — `y`
itself when a frame, `y.to_frame()` when a series, else the primary input
`X`, asserted to be a frame — then extracts the target selector's subset and
applies the fitted target transformer if present (`applyY`). -/
theorem C4_extract_y_cases {σ : Type} (m : DataFrameMapper σ) (X : XArg) (y : YArg) :
    (y = YArg.noneY → m.y_feature = none → m.extract_y X y = Except.ok none) ∧
    (y ≠ YArg.noneY → m.y_feature = none → m.extract_y X y = Except.error Err.valueError) ∧
    (∀ yc ytr, m.y_feature = some (yc, ytr) →
      m.extract_y X y = (resolveTargetFrame X y).bind (applyY yc ytr) ∧
      (∀ f, y = YArg.frame f → m.extract_y X y = applyY yc ytr f) ∧
      (∀ n v, y = YArg.series n v → m.extract_y X y = applyY yc ytr ⟨[(n, v)]⟩) ∧
      ((y = YArg.noneY ∨ y = YArg.other) → ∀ f, X = XArg.frame f →
        m.extract_y X y = applyY yc ytr f) ∧
      ((y = YArg.noneY ∨ y = YArg.other) → X = XArg.other →
        m.extract_y X y = Except.error Err.assertionError)) := by
  refine ⟨?_, ?_, ?_⟩
  · rintro rfl hy
    simp [DataFrameMapper.extract_y, hy]
  · intro hne hy
    cases y with
    | noneY => exact absurd rfl hne
    | frame f => simp [DataFrameMapper.extract_y, hy]
    | series n v => simp [DataFrameMapper.extract_y, hy]
    | other => simp [DataFrameMapper.extract_y, hy]
  · intro yc ytr hy
    have hmain : m.extract_y X y = (resolveTargetFrame X y).bind (applyY yc ytr) := by
      cases y <;> simp only [DataFrameMapper.extract_y, hy] <;> rfl
    refine ⟨hmain, ?_, ?_, ?_, ?_⟩
    · rintro f rfl
      rw [hmain]; rfl
    · rintro n v rfl
      rw [hmain]; rfl
    · rintro hyn f rfl
      rcases hyn with rfl | rfl <;> (rw [hmain]; rfl)
    · rintro hyn rfl
      rcases hyn with rfl | rfl <;> (rw [hmain]; rfl)

theorem C4_extract_y_cases_witness :
    mapperC4.y_feature = none ∧
    mapperC4.extract_y XArg.other YArg.noneY = Except.ok none ∧
    mapperC4.extract_y XArg.other (YArg.series "s" [1]) = Except.error Err.valueError ∧
    mapperC4T.y_feature = some (Selector.single "y", none) ∧
    mapperC4T.extract_y XArg.other (YArg.series "y" [5, 6]) =
      @applyY Unit (Selector.single "y") none ⟨[("y", [5, 6])]⟩ :=
  ⟨rfl,
   (C4_extract_y_cases mapperC4 XArg.other YArg.noneY).1 rfl rfl,
   (C4_extract_y_cases mapperC4 XArg.other (YArg.series "s" [1])).2.1 (by simp) rfl,
   rfl,
   (((C4_extract_y_cases mapperC4T XArg.other (YArg.series "y" [5, 6])).2.2
      (Selector.single "y") none rfl).2.2.1) "y" [5, 6] rfl⟩

theorem transformFeatures_pure_features {σ : Type} (fs : List (Feature σ)) (X : Frame)
    (hp : ∀ f ∈ fs, ∀ t, f.2 = some t → TransPure t) :
    (transformFeatures fs X).1 = fs := by
  induction fs with
  | nil => rfl
  | cons f rest ih =>
    obtain ⟨columns, transformers⟩ := f
    have hrest : (transformFeatures rest X).1 = rest :=
      ih (fun g hg t ht => hp g (List.mem_cons_of_mem _ hg) t ht)
    cases hg : get_col_subset X columns with
    | error e => simp [transformFeatures, hg]
    | ok Xt =>
      cases transformers with
      | none => simp [transformFeatures, hg, hrest]
      | some t =>
        cases htf : t.transformFn t.state Xt with
        | error e => simp [transformFeatures, hg, htf]
        | ok p =>
          obtain ⟨Xt2, s1⟩ := p
          have hs : s1 = t.state :=
            hp (columns, some t) (List.mem_cons_self _ _) t rfl t.state Xt Xt2 s1 htf
          subst hs
          have heta : ({ t with state := t.state } : Transformer σ) = t := rfl
          simp [transformFeatures, hg, htf, hrest, heta]

/-- Claim C9: for every fitted Mapper whose transformers are deterministic
and do not mutate their state in `transform` (`TransPure`), a `transform`
call leaves the Mapper unchanged, so two consecutive `transform` calls on the
same input return identical results. -/
theorem C9_transform_idempotent {σ : Type} (m : DataFrameMapper σ) (X : Frame)
    (hp : ∀ f ∈ m.features, ∀ t, f.2 = some t → TransPure t) :
    (m.transform X).1 = m ∧ ((m.transform X).1).transform X = m.transform X := by
  have h1 : (m.transform X).1 = m := by
    show { m with features := (transformFeatures m.features X).1 } = m
    rw [transformFeatures_pure_features m.features X hp]
  exact ⟨h1, by rw [h1]⟩

theorem C9_transform_idempotent_witness :
    (mapperC9.transform frameC9).1 = mapperC9 ∧
    ((mapperC9.transform frameC9).1).transform frameC9 = mapperC9.transform frameC9 :=
  C9_transform_idempotent mapperC9 frameC9
    (by
      intro f hf t ht s x out s' hok
      rfl)

end SklearnPandas
